import Mathlib

/-
  Verification development for the Neuraforesight-Agent scraper repository.

  The Python sources are shallowly embedded:
  * JSON / Python values are the inductive `Json` (Python `None` is `Json.null`;
    a JSON number is a rational, covering Python int and float of the data
    actually exchanged; Python bools are `Json.bool`).
  * Raising Python code is embedded in `Except PyErr`.
  * The network is an explicit environment: every `session.get` is modelled by
    an `HResp` value (transport exception, or status / content type / body /
    JSON-parse of the body).  The parse result is part of the environment model,
    so no JSON parser has to be written.
  * `asyncio` completion order is nondeterministic in the source; the model
    processes units in input order.  All statements proved below are
    insensitive to that order (lengths, per-name records, abort behaviour).
  * Character classes of the regular expressions are modelled over ASCII.
-/

namespace NFA

/-- JSON / Python value universe used by the scrapers. -/
inductive Json where
  | null
  | bool (b : Bool)
  | num (q : ℚ)
  | str (s : String)
  | arr (xs : List Json)
  | obj (kvs : List (String × Json))

/-- Python exception kinds raised by the embedded code. -/
inductive PyErr where
  | transport
  | httpStatus (code : Nat)
  | jsonDecode
  | attrError
  | typeError
  | indexError
deriving DecidableEq

/-- Python truthiness of a value (`if x:`). -/
def Json.truthy : Json → Bool
  | .null => false
  | .bool b => b
  | .num q => decide (q ≠ 0)
  | .str s => decide (s ≠ "")
  | .arr [] => false
  | .arr (_ :: _) => true
  | .obj [] => false
  | .obj (_ :: _) => true

def Json.isObj : Json → Bool
  | .obj _ => true
  | _ => false

def Json.isArr : Json → Bool
  | .arr _ => true
  | _ => false

def Json.isStr : Json → Bool
  | .str _ => true
  | _ => false

/-- Dictionary lookup on an object, `None` (= `Json.null`) when the key is
absent; `Json.null` on a non-object (only used where objecthood is already
established). -/
def Json.dget (j : Json) (k : String) : Json :=
  match j with
  | .obj kvs =>
    match kvs.find? (fun kv => kv.1 == k) with
    | some kv => kv.2
    | none => .null
  | _ => .null

/-- Dictionary lookup with an explicit default, as `m.get(k, d)`. -/
def Json.dgetD (j : Json) (k : String) (d : Json) : Json :=
  match j with
  | .obj kvs =>
    match kvs.find? (fun kv => kv.1 == k) with
    | some kv => kv.2
    | none => d
  | _ => d

/-- Python `m.get(k)`: `AttributeError` when the receiver is not a dict. -/
def Json.dictGet (j : Json) (k : String) : Except PyErr Json :=
  match j with
  | .obj _ => .ok (j.dget k)
  | _ => .error .attrError

/-- Python `m.get(k, d)`: `AttributeError` when the receiver is not a dict. -/
def Json.dictGetD (j : Json) (k : String) (d : Json) : Except PyErr Json :=
  match j with
  | .obj _ => .ok (j.dgetD k d)
  | _ => .error .attrError

/-- Key list of an object row, in insertion order. -/
def Json.keys : Json → List String
  | .obj kvs => kvs.map Prod.fst
  | _ => []

/-- Python `x or d`. -/
def pyOrJ (v d : Json) : Json :=
  if v.truthy then v else d

/-- Python `int()` on a rational: truncation toward zero. -/
def pyInt (q : ℚ) : Int :=
  Int.tdiv q.num (q.den : Int)

/-- Mathematical floor of a rational (the spec's `floor`). -/
def ratFloor (q : ℚ) : Int :=
  Int.fdiv q.num (q.den : Int)

/-- Contribution of the search `score` field: the code guards with
`isinstance(s, (int, float))`, which in Python also admits `bool`. -/
def pyNumContrib : Json → Int
  | .num q => pyInt q
  | .bool b => if b then 1 else 0
  | _ => 0

/-- Python `len()`: defined on lists, strings and dicts, `TypeError` otherwise. -/
def pyLen : Json → Except PyErr Int
  | .arr xs => .ok xs.length
  | .str s => .ok s.length
  | .obj kvs => .ok kvs.length
  | _ => .error .typeError

/- ------------------------------------------------------------------
   Name normalizers.
   chembl_scrapper.normalize_name:
     if not isinstance(s, str): return ""
     return re.sub(r"[\s\-_,.;:/]+", "", s).lower()
   ------------------------------------------------------------------ -/

/-- Characters removed by the chembl normalizer (ASCII part of the class
`[\s\-_,.;:/]`). -/
def isStripChar (c : Char) : Bool :=
  c = ' ' || c = '\t' || c = '\n' || c = '\x0d' || c = '\x0b' || c = '\x0c' ||
  c = '-' || c = '_' || c = ',' || c = '.' || c = ';' || c = ':' || c = '/'

/-- The chembl normalizer on a string: delete the character class, lower case.
(Deleting every run of the class equals deleting each of its characters.) -/
def normStr (s : String) : String :=
  ((s.toList.filter (fun c => !isStripChar c)).map Char.toLower).asString

/-- chembl `normalize_name`: non-strings normalize to the empty key. -/
def normalize_name : Json → String
  | .str s => normStr s
  | _ => ""

/- ------------------------------------------------------------------
   scrapper_drugs@fda_full_100.normalize_name:
     name = str(name)
     name = re.sub(r"\(.*?\)", "", name)   # drop parenthesized runs
     name = re.sub(r"[^\w\s]", "", name)   # drop punctuation
     return name.strip().upper()
   ------------------------------------------------------------------ -/

/-- ASCII word character (`\w`). -/
def isWordChar (c : Char) : Bool :=
  c.isAlphanum || c = '_'

/-- ASCII whitespace (`\s`). -/
def isPySpace (c : Char) : Bool :=
  c = ' ' || c = '\t' || c = '\n' || c = '\x0d' || c = '\x0b' || c = '\x0c'

/-- Scan for the first `)` reachable without crossing a newline (the lazy
`.*?` of `\(.*?\)` cannot cross `\n`); returns the remaining suffix. -/
def findClose : List Char → Option (List Char)
  | [] => none
  | c :: rest =>
    if c = ')' then some rest
    else if c = '\n' then none
    else findClose rest

/-- Structural worker for `stripParens`: every step strictly shortens the
list (`findClose` returns a strict suffix), so fuel equal to the input length
never runs out.  Fuel keeps the recursion structural. -/
def stripParensGo : Nat → List Char → List Char
  | 0, l => l
  | _, [] => []
  | fuel + 1, c :: rest =>
    if c = '(' then
      match findClose rest with
      | some rest2 => stripParensGo fuel rest2
      | none => c :: stripParensGo fuel rest
    else c :: stripParensGo fuel rest

/-- `re.sub(r"\(.*?\)", "", s)`: remove each non-overlapping lazy paren match
scanning left to right; an unmatched `(` is kept. -/
def stripParens (l : List Char) : List Char :=
  stripParensGo l.length l

/-- Python `.strip()` on a char list. -/
def pyStrip (l : List Char) : List Char :=
  ((l.dropWhile isPySpace).reverse.dropWhile isPySpace).reverse

/-- fda `normalize_name` (string input; the source first coerces with
`str(name)`, so a non-string is formatted, not mapped to the empty key). -/
def normalize_name_fda (name : String) : String :=
  ((pyStrip ((stripParens name.toList).filter
      (fun c => isWordChar c || isPySpace c))).map Char.toUpper).asString

/-- Modelled from the spec: the uppercase variant the spec asserts, namely the
chembl removal rule with the case fold turned upward ("named variants of the
same canonicalization rule"). -/
def normStrUpper (s : String) : String :=
  ((s.toList.filter (fun c => !isStripChar c)).map Char.toUpper).asString

/- ------------------------------------------------------------------
   HTTP layer of chembl_scrapper (aiohttp).
   ------------------------------------------------------------------ -/

/-- One HTTP exchange: a transport-level exception, or a response with status,
Content-Type header, text body, and the JSON parse of that body (`none` when
the body is not parseable JSON). -/
inductive HResp where
  | exn
  | resp (status : Nat) (contentType : String) (body : String) (parsed : Option Json)

/-- Substring test (`"json" in ct`). -/
def containsSubstr (needle hay : String) : Bool :=
  hay.toList.tails.any (fun t => needle.toList.isPrefixOf t)

/-- chembl_scrapper.fetch:
    404 -> None; raise_for_status (status >= 400 raises); a body whose
    Content-Type does not contain "json" is returned as text; otherwise the
    body is JSON-decoded, raising on a malformed body. -/
def fetch : HResp → Except PyErr Json
  | .exn => .error .transport
  | .resp status contentType body parsed =>
    if status = 404 then .ok .null
    else if 400 ≤ status then .error (.httpStatus status)
    else if !containsSubstr "json" contentType then .ok (.str body)
    else
      match parsed with
      | some j => .ok j
      | none => .error .jsonDecode

/-- chembl_scrapper.fetch_image_svg: 404 -> ""; raise_for_status; else text. -/
def fetch_image_svg : HResp → Except PyErr String
  | .exn => .error .transport
  | .resp status _ body _ =>
    if status = 404 then .ok ""
    else if 400 ≤ status then .error (.httpStatus status)
    else .ok body

/- ------------------------------------------------------------------
   Identifier resolver (chembl_scrapper.get_chembl_id).
   ------------------------------------------------------------------ -/

/-- Number of synonym entries whose normalized form equals the target:
`syns = [x.get("molecule_synonym") for x in syn_field if isinstance(x, dict)]`
then one `+80` per normalized match. -/
def synMatches (t : String) (synField : Json) : Nat :=
  match synField with
  | .arr xs =>
    ((xs.filterMap (fun x =>
        match x with
        | .obj kvs => some ((Json.obj kvs).dget "molecule_synonym")
        | _ => none)).filter
      (fun syn => normalize_name syn == t)).length
  | _ => 0

/-- Score of one candidate dict, exactly as accumulated in the loop body of
`get_chembl_id`: +100 on preferred-name match (`pref_name` defaulted with
`or ""`), +80 per synonym match, plus `int(score)` when `isinstance` passes. -/
def candScore (t : String) (m : Json) : Int :=
  (if normalize_name (pyOrJ (m.dget "pref_name") (.str "")) == t then 100 else 0)
  + 80 * (synMatches t (m.dget "molecule_synonyms") : Int)
  + pyNumContrib (m.dget "score")

/-- The selection loop of `get_chembl_id`, with `best = None`,
`best_score = -1` initially and a strict `>` update. -/
def selAux (t : String) : List Json → Json → Int → Json
  | [], best, _ => best
  | m :: rest, best, bs =>
    if candScore t m > bs then
      selAux t rest (m.dget "molecule_chembl_id") (candScore t m)
    else
      selAux t rest best bs

/-- The same loop in the error monad: iterating a candidate that is not a dict
raises at `m.get("molecule_chembl_id")`. -/
def scoreLoop (t : String) : List Json → Json → Int → Except PyErr Json
  | [], best, _ => .ok best
  | m :: rest, best, bs =>
    match m with
    | .obj _ =>
      if candScore t m > bs then
        scoreLoop t rest (m.dget "molecule_chembl_id") (candScore t m)
      else
        scoreLoop t rest best bs
    | _ => .error .attrError

/-- chembl_scrapper.get_chembl_id over the search response. -/
def get_chembl_id (hr : HResp) (drug_name : String) : Except PyErr Json :=
  match fetch hr with
  | .error e => .error e
  | .ok data =>
    if !data.truthy then .ok .null
    else if data.isStr then .ok .null
    else
      match data.dictGetD "molecules" (.arr []) with
      | .error e => .error e
      | .ok molecules =>
        if !molecules.truthy then .ok .null
        else
          match molecules with
          | .arr ms =>
            match scoreLoop (normStr drug_name) ms .null (-1) with
            | .error e => .error e
            | .ok best =>
              if best.truthy then .ok best
              else
                match ms with
                | [] => .error .indexError
                | m0 :: _ => m0.dictGet "molecule_chembl_id"
          | _ => .error .typeError
  -- a truthy non-list `molecules` value makes the Python for-loop raise

/-- Modelled from the spec: the claimed per-candidate score, identical to the
code's except that the external score contributes its mathematical floor. -/
def specCandScore (t : String) (m : Json) : Int :=
  (if normalize_name (pyOrJ (m.dget "pref_name") (.str "")) == t then 100 else 0)
  + 80 * (synMatches t (m.dget "molecule_synonyms") : Int)
  + (match m.dget "score" with
     | .num q => ratFloor q
     | _ => 0)

/-- Modelled from the spec: select the candidate with the strictly highest
claimed score, keeping the first-seen candidate on ties. -/
def specSelect (t : String) : List Json → Json
  | [] => .null
  | m0 :: rest =>
    let best := (m0 :: rest).foldl (fun a m => max a (specCandScore t m))
      (specCandScore t m0)
    match (m0 :: rest).find? (fun m => specCandScore t m == best) with
    | some m => m.dget "molecule_chembl_id"
    | none => .null

/-- Running maximum of the code scores over a candidate list, seeded with the
loop's initial `best_score`. -/
def maxScore (t : String) (ms : List Json) (s : Int) : Int :=
  ms.foldl (fun a m => max a (candScore t m)) s

/-- A well-formed 200 search response carrying the given candidate list. -/
def searchResp (ms : List Json) : HResp :=
  .resp 200 "application/json" "" (some (.obj [("molecules", .arr ms)]))

/- ------------------------------------------------------------------
   Per-entity unit (chembl_scrapper.process_drug) and flattener.
   ------------------------------------------------------------------ -/

/-- The network environment of one entity unit: the response each of the six
requests of `process_drug` receives. -/
structure Env where
  search : HResp
  molecule : HResp
  drug : HResp
  mechanism : HResp
  activity : HResp
  svg : HResp

/-- The record emitted when resolution yields no truthy id. -/
def errRecord (drug_name : String) : Json :=
  .obj [("drug_name", .str drug_name), ("chembl_id", .null),
        ("error", .str "not_found")]

/-- chembl_scrapper.process_drug.  There is no try/except in the source: any
raise inside propagates out of the unit. -/
def process_drug (env : Env) (drug_name : String) : Except PyErr Json :=
  match get_chembl_id env.search drug_name with
  | .error e => .error e
  | .ok cid =>
    if !cid.truthy then .ok (errRecord drug_name)
    else
      match fetch env.molecule with
      | .error e => .error e
      | .ok molecule =>
        match fetch env.drug with
        | .error e => .error e
        | .ok drug =>
          match fetch env.mechanism with
          | .error e => .error e
          | .ok mech =>
            match fetch env.activity with
            | .error e => .error e
            | .ok act =>
              match fetch_image_svg env.svg with
              | .error e => .error e
              | .ok svg =>
                .ok (.obj [
                  ("drug_name", .str drug_name),
                  ("chembl_id", cid),
                  ("molecule", if molecule.isObj then molecule else .obj []),
                  ("drug", if drug.isObj then drug else .obj []),
                  ("mechanism",
                    if mech.isObj then mech.dgetD "mechanisms" (.arr [])
                    else .arr []),
                  ("activities",
                    if act.isObj then act.dgetD "activities" (.arr [])
                    else .arr []),
                  ("structure_svg", .str svg)])

/-- chembl_scrapper.flatten_record.  Failure points mirror the source's
evaluation order: `mol.get` on a truthy non-dict molecule, then the first
`props.get`, the first `structs.get`, then the two `len()` calls. -/
def flatten_record (rec : Json) : Except PyErr Json :=
  match rec.dictGet "molecule" with
  | .error e => .error e
  | .ok mol0 =>
    let mol := pyOrJ mol0 (.obj [])
    match mol.dictGet "molecule_properties" with
    | .error e => .error e
    | .ok props0 =>
      let props := pyOrJ props0 (.obj [])
      match mol.dictGet "molecule_structures" with
      | .error e => .error e
      | .ok structs0 =>
        let structs := pyOrJ structs0 (.obj [])
        if !props.isObj then .error .attrError
        else if !structs.isObj then .error .attrError
        else
          match pyLen (pyOrJ (rec.dget "activities") (.arr [])) with
          | .error e => .error e
          | .ok actsLen =>
            match pyLen (pyOrJ (rec.dget "mechanism") (.arr [])) with
            | .error e => .error e
            | .ok mechLen =>
              .ok (.obj [
                ("drug_name", rec.dget "drug_name"),
                ("chembl_id", rec.dget "chembl_id"),
                ("pref_name", mol.dget "pref_name"),
                ("max_phase", mol.dget "max_phase"),
                ("first_approval", mol.dget "first_approval"),
                ("molecule_type", mol.dget "molecule_type"),
                ("therapeutic_flag", mol.dget "therapeutic_flag"),
                ("oral", mol.dget "oral"),
                ("parenteral", mol.dget "parenteral"),
                ("topical", mol.dget "topical"),
                ("molecule_form", mol.dget "structure_type"),
                ("full_mwt", props.dget "full_mwt"),
                ("alogp", props.dget "alogp"),
                ("cx_logp", props.dget "cx_logp"),
                ("hba", props.dget "hba"),
                ("hbd", props.dget "hbd"),
                ("psa", props.dget "psa"),
                ("rtb", props.dget "rtb"),
                ("full_molformula", props.dget "full_molformula"),
                ("canonical_smiles", structs.dget "canonical_smiles"),
                ("standard_inchi", structs.dget "standard_inchi"),
                ("standard_inchi_key", structs.dget "standard_inchi_key"),
                ("activities_count", .num (actsLen : ℚ)),
                ("mechanisms_count", .num (mechLen : ℚ)),
                ("has_drug_record", .bool (rec.dget "drug").truthy)])

/-- Length of a list value, 0 otherwise (spec-side count). -/
def listLenD : Json → Int
  | .arr xs => xs.length
  | _ => 0

/-- Modelled from the spec: the total flattener the spec describes (missing
or absent nested fields map to null/empty, derived counts are the list
lengths, the flag is the truthiness of the relation record). -/
def flattenSpec (rec : Json) : Json :=
  let mol := pyOrJ (rec.dget "molecule") (.obj [])
  let props := pyOrJ (mol.dget "molecule_properties") (.obj [])
  let structs := pyOrJ (mol.dget "molecule_structures") (.obj [])
  .obj [
    ("drug_name", rec.dget "drug_name"),
    ("chembl_id", rec.dget "chembl_id"),
    ("pref_name", mol.dget "pref_name"),
    ("max_phase", mol.dget "max_phase"),
    ("first_approval", mol.dget "first_approval"),
    ("molecule_type", mol.dget "molecule_type"),
    ("therapeutic_flag", mol.dget "therapeutic_flag"),
    ("oral", mol.dget "oral"),
    ("parenteral", mol.dget "parenteral"),
    ("topical", mol.dget "topical"),
    ("molecule_form", mol.dget "structure_type"),
    ("full_mwt", props.dget "full_mwt"),
    ("alogp", props.dget "alogp"),
    ("cx_logp", props.dget "cx_logp"),
    ("hba", props.dget "hba"),
    ("hbd", props.dget "hbd"),
    ("psa", props.dget "psa"),
    ("rtb", props.dget "rtb"),
    ("full_molformula", props.dget "full_molformula"),
    ("canonical_smiles", structs.dget "canonical_smiles"),
    ("standard_inchi", structs.dget "standard_inchi"),
    ("standard_inchi_key", structs.dget "standard_inchi_key"),
    ("activities_count", .num ((listLenD (pyOrJ (rec.dget "activities") (.arr []))) : ℚ)),
    ("mechanisms_count", .num ((listLenD (pyOrJ (rec.dget "mechanism") (.arr []))) : ℚ)),
    ("has_drug_record", .bool (rec.dget "drug").truthy)]

/-- The flat row's fixed column enumeration. -/
def flatColumns : List String :=
  ["drug_name", "chembl_id", "pref_name", "max_phase", "first_approval",
   "molecule_type", "therapeutic_flag", "oral", "parenteral", "topical",
   "molecule_form", "full_mwt", "alogp", "cx_logp", "hba", "hbd", "psa",
   "rtb", "full_molformula", "canonical_smiles", "standard_inchi",
   "standard_inchi_key", "activities_count", "mechanisms_count",
   "has_drug_record"]

/- ------------------------------------------------------------------
   Filesystem model and the two asset persisters.
   ------------------------------------------------------------------ -/

/-- A single-process filesystem namespace: current contents (first match
shadows) and the chronological log of physical writes. -/
structure FS where
  files : List (String × String)
  writeLog : List (String × String)

def FS.pathExists (fs : FS) (p : String) : Bool :=
  fs.files.any (fun f => f.1 == p)

def FS.write (fs : FS) (p c : String) : FS :=
  ⟨(p, c) :: fs.files, fs.writeLog ++ [(p, c)]⟩

def emptyFS : FS := ⟨[], []⟩

/-- Prefix of a string before the first `#` (Python `url.split("#")[0]`). -/
def splitHashHead (s : String) : String :=
  (s.toList.takeWhile (fun c => c ≠ '#')).asString

/-- Suffix after the last `/` (`os.path.basename`). -/
def basename (s : String) : String :=
  ((s.toList.reverse.takeWhile (fun c => c ≠ '/')).reverse).asString

/-- scrapper_drugs@fda_full.make_safe_folder_name:
`re.sub(r"[^\w\-\.]", "_", name)`. -/
def make_safe_folder_name (s : String) : String :=
  (s.toList.map (fun c =>
    if isWordChar c || c = '-' || c = '.' then c else '_')).asString

/-- The deterministic target path of `download_pdf`
(`PDF_DIR/{appl_no}_{safe_name}/{filename}`; PDF_DIR is modelled relative to
the working directory). -/
def savePath (url appl_no drug_name : String) : String :=
  "fda_downloads/pdfs/" ++ appl_no ++ "_" ++ make_safe_folder_name drug_name
    ++ "/" ++ basename (splitHashHead url)

/-- scrapper_drugs@fda_full.download_pdf: skip when the path exists; otherwise
attempt the download, whose failure is caught (nothing saved, no raise).
`result` is the downloaded payload, `none` when the download raised. -/
def download_pdf (fs : FS) (url appl_no drug_name : String)
    (result : Option String) : FS :=
  let save_path := savePath url appl_no drug_name
  if fs.pathExists save_path then fs
  else
    match result with
    | some bytes => fs.write save_path bytes
    | none => fs

/-- Python `f"{v}"` for the values reaching the svg path (string ids in
practice; container and float formatting is not exercised by any theorem). -/
def pyFormat : Json → String
  | .str s => s
  | .null => "None"
  | .bool true => "True"
  | .bool false => "False"
  | .num q => if q.den = 1 then toString q.num else toString q
  | .arr _ => ""
  | .obj _ => ""

/-- The svg persist step of chembl_scrapper.main: unconditional write of
`structures/{cid}.svg` whenever `cid and svg` is truthy — no existence
check.  Writing a truthy non-string svg value would raise. -/
def persistSvgStep (fs : FS) (rec : Json) : Except PyErr FS :=
  match rec.dictGet "chembl_id" with
  | .error e => .error e
  | .ok cid =>
    match rec.dictGet "structure_svg" with
    | .error e => .error e
    | .ok svg0 =>
      let svg := pyOrJ svg0 (.str "")
      if cid.truthy && svg.truthy then
        match svg with
        | .str s => .ok (fs.write ("structures/" ++ pyFormat cid ++ ".svg") s)
        | _ => .error .typeError
      else .ok fs

/- ------------------------------------------------------------------
   Orchestrator (chembl_scrapper.main).
   ------------------------------------------------------------------ -/

/-- The run's observable output: aggregate records, flat rows, filesystem. -/
structure RunResult where
  results : List Json
  flattened : List Json
  fs : FS

/-- The per-entity collection loop of `main`.  Any raise aborts the whole
run: the final output files are only written after the loop. -/
def mainLoop (env : String → Env) (fs : FS) : List String → Except PyErr RunResult
  | [] => .ok ⟨[], [], fs⟩
  | d :: ds =>
    match process_drug (env d) d with
    | .error e => .error e
    | .ok rec =>
      match persistSvgStep fs rec with
      | .error e => .error e
      | .ok fs1 =>
        match flatten_record rec with
        | .error e => .error e
        | .ok flat =>
          match mainLoop env fs1 ds with
          | .error e => .error e
          | .ok out => .ok ⟨rec :: out.results, flat :: out.flattened, out.fs⟩

/-- First-occurrence deduplication (pandas `unique`). -/
def uniqueAux : List String → List String → List String
  | [], _ => []
  | x :: xs, seen =>
    if x ∈ seen then uniqueAux xs seen else x :: uniqueAux xs (x :: seen)

def uniqueFirst (l : List String) : List String :=
  uniqueAux l []

/-- `df["Drug Name"].dropna().astype(str).unique().tolist()`: the input cells
with missing values dropped, then first-occurrence deduplication. -/
def drugsOf (cells : List (Option String)) : List String :=
  uniqueFirst (cells.filterMap id)

/-- chembl_scrapper.main on an input column and a network environment. -/
def mainRun (env : String → Env) (cells : List (Option String)) :
    Except PyErr RunResult :=
  mainLoop env emptyFS (drugsOf cells)

/- ------------------------------------------------------------------
   Depagination (clinical_trials.fetch_studies).
   ------------------------------------------------------------------ -/

/-- One response of the clinicaltrials.gov endpoint: a transport exception or
status plus JSON parse of the body (`requests` parses on demand). -/
inductive CTResp where
  | exn
  | resp (status : Nat) (parsed : Option Json)

/-- Outcome of the while-loop: normal exit with the accumulated studies and
the number of requests issued, a raise, or exhaustion of the provided
response sequence while the loop still wants another page. -/
inductive CTOutcome where
  | done (studies : List Json) (requests : Nat)
  | err (e : PyErr) (requests : Nat)
  | outOfResponses

/-- Python `list.extend(v)`: lists append elementwise, strings append their
characters, dicts their keys; other values raise. -/
def pyExtend (acc : List Json) (v : Json) : Except PyErr (List Json) :=
  match v with
  | .arr xs => .ok (acc ++ xs)
  | .str s => .ok (acc ++ s.toList.map (fun c => .str c.toString))
  | .obj kvs => .ok (acc ++ kvs.map (fun kv => .str kv.1))
  | _ => .error .typeError

/-- The loop body of fetch_studies: break on a non-200 status (that page's
items are discarded), decode JSON (raising on a malformed body), extend the
accumulator, stop when `nextPageToken` is falsy. -/
def ctGo : List CTResp → List Json → Nat → CTOutcome
  | [], _, _ => .outOfResponses
  | .exn :: _, _, n => .err .transport (n + 1)
  | .resp status parsed :: rest, acc, n =>
    if status ≠ 200 then .done acc (n + 1)
    else
      match parsed with
      | none => .err .jsonDecode (n + 1)
      | some data =>
        match data.dictGetD "studies" (.arr []) with
        | .error e => .err e (n + 1)
        | .ok sv =>
          match pyExtend acc sv with
          | .error e => .err e (n + 1)
          | .ok acc2 =>
            match data.dictGet "nextPageToken" with
            | .error e => .err e (n + 1)
            | .ok tok =>
              if tok.truthy then ctGo rest acc2 (n + 1)
              else .done acc2 (n + 1)

/-- clinical_trials.fetch_studies, run against a response sequence. -/
def fetch_studies (responses : List CTResp) : CTOutcome :=
  ctGo responses [] 0

/-- A well-formed 200 page with the given items and next-cursor value. -/
def ctPage (items : List Json) (tok : Json) : CTResp :=
  .resp 200 (some (.obj [("studies", .arr items), ("nextPageToken", tok)]))

def ctPages (pages : List (List Json × Json)) : List CTResp :=
  pages.map (fun p => ctPage p.1 p.2)

/- ------------------------------------------------------------------
   Concrete inputs used by witnesses and counterexamples.
   ------------------------------------------------------------------ -/

/-- The spec's worked example candidate. -/
def aspirinCand : Json :=
  .obj [("molecule_chembl_id", .str "X25"), ("pref_name", .str "ASPIRIN"),
        ("molecule_synonyms", .arr []), ("score", .num 12)]

/-- Candidate with a preferred-name match and external score -1.5. -/
def candA : Json :=
  .obj [("molecule_chembl_id", .str "IDA"), ("pref_name", .str "ASPIRIN"),
        ("molecule_synonyms", .arr []),
        ("score", .num (Rat.mk' (-3) 2 (by decide) (by decide)))]

/-- Candidate with one synonym match and external score 19. -/
def candB : Json :=
  .obj [("molecule_chembl_id", .str "IDB"), ("pref_name", .str "other"),
        ("molecule_synonyms", .arr [.obj [("molecule_synonym", .str "Aspirin")]]),
        ("score", .num 19)]

/-- All-absent environment: every request 404s, so resolution misses. -/
def notFoundEnv : Env :=
  ⟨.resp 404 "" "" none, .resp 404 "" "" none, .resp 404 "" "" none,
   .resp 404 "" "" none, .resp 404 "" "" none, .resp 404 "" "" none⟩

/-- Environment whose resolution succeeds but whose molecule fetch raises a
transport error. -/
def abortEnv : Env :=
  { notFoundEnv with search := searchResp [aspirinCand], molecule := .exn }

/-- Record shaped like the data model's RawText detail variant. -/
def rawTextRec : Json :=
  .obj [("drug_name", .str "A"), ("molecule", .str "rawtext")]

/-- A full well-formed record for the flattener witness. -/
def recW8 : Json :=
  .obj [("drug_name", .str "Aspirin"), ("chembl_id", .str "X25"),
        ("molecule", .obj [("pref_name", .str "ASPIRIN"),
          ("molecule_properties", .obj [("full_mwt", .str "180.16")]),
          ("molecule_structures", .null)]),
        ("drug", .obj [("applicants", .num 1)]),
        ("mechanism", .arr [.obj []]),
        ("activities", .arr [.obj [], .obj []]),
        ("structure_svg", .str "svg")]

/-- Record persisted twice in the svg-persist counterexample. -/
def recC6 : Json :=
  .obj [("chembl_id", .str "CHEMBL25"), ("structure_svg", .str "svgdata")]

/-- Two-page response where the second page carries a 500 status although its
body holds both items and a cursor. -/
def ctBad : List CTResp :=
  [ctPage [.str "a"] (.str "t"),
   .resp 500 (some (.obj [("studies", .arr [.str "b"]),
     ("nextPageToken", .str "u")]))]

/-- Three pages for the depagination witness. -/
def ctThree : List (List Json × Json) :=
  [([.str "s1", .str "s2"], .str "tok1"),
   ([.str "s3"], .str "tok2"),
   ([.str "s4", .str "s5"], .null)]

/-- Environment used by run witnesses: every entity misses resolution. -/
def envW : String → Env := fun _ => notFoundEnv

/-- Input column with a missing cell and a duplicated name. -/
def cellsW : List (Option String) := [some "A", none, some "A"]

/- ==================================================================
   Theorems.
   ================================================================== -/

theorem isObj_exists {j : Json} (h : j.isObj = true) : ∃ kvs, j = Json.obj kvs := by
  cases j <;> simp_all [Json.isObj]

theorem isArr_exists {j : Json} (h : j.isArr = true) : ∃ xs, j = Json.arr xs := by
  cases j <;> simp_all [Json.isArr]

theorem dictGet_obj {j : Json} (k : String) (h : j.isObj = true) :
    j.dictGet k = .ok (j.dget k) := by
  cases j <;> simp_all [Json.isObj, Json.dictGet]

theorem pyOrJ_truthy (v d : Json) : (pyOrJ v d).truthy = (v.truthy || d.truthy) := by
  unfold pyOrJ
  cases hv : v.truthy <;> simp [hv]

theorem FS.pathExists_write_self (fs : FS) (p c : String) :
    (fs.write p c).pathExists p = true := by
  simp [FS.write, FS.pathExists]

theorem mem_uniqueAux : ∀ (l seen : List String) (x : String),
    x ∈ uniqueAux l seen ↔ (x ∈ l ∧ x ∉ seen) := by
  intro l
  induction l with
  | nil => intro seen x; simp [uniqueAux]
  | cons a l ih =>
    intro seen x
    by_cases ha : a ∈ seen
    · rw [uniqueAux, if_pos ha, ih]
      constructor
      · rintro ⟨hx, hns⟩
        exact ⟨List.mem_cons_of_mem a hx, hns⟩
      · rintro ⟨hor, hns⟩
        rcases List.mem_cons.mp hor with h1 | h1
        · exact absurd (h1 ▸ ha) hns
        · exact ⟨h1, hns⟩
    · rw [uniqueAux, if_neg ha]
      simp only [List.mem_cons, ih, List.mem_cons, not_or]
      constructor
      · rintro (h1 | ⟨h1, h2, h3⟩)
        · exact ⟨Or.inl h1, fun hc => ha (h1 ▸ hc)⟩
        · exact ⟨Or.inr h1, h3⟩
      · rintro ⟨h1 | h1, h2⟩
        · exact Or.inl h1
        · by_cases hxa : x = a
          · exact Or.inl hxa
          · exact Or.inr ⟨h1, hxa, h2⟩

theorem nodup_uniqueAux : ∀ (l seen : List String), (uniqueAux l seen).Nodup := by
  intro l
  induction l with
  | nil => intro seen; simp [uniqueAux]
  | cons a l ih =>
    intro seen
    by_cases ha : a ∈ seen
    · rw [uniqueAux, if_pos ha]
      exact ih seen
    · rw [uniqueAux, if_neg ha]
      refine List.nodup_cons.mpr ⟨?_, ih _⟩
      intro hmem
      exact ((mem_uniqueAux l (a :: seen) a).mp hmem).2 (List.mem_cons_self a seen)

theorem mem_uniqueFirst (l : List String) (x : String) :
    x ∈ uniqueFirst l ↔ x ∈ l := by
  rw [uniqueFirst, mem_uniqueAux]
  simp

theorem nodup_uniqueFirst (l : List String) : (uniqueFirst l).Nodup :=
  nodup_uniqueAux l []

/-- Claim C4 (amended): a response whose Content-Type does not contain
"json" is returned as raw text (for a non-404, non-error status); a
JSON-typed response whose body does not parse raises a decode error instead
of degrading to raw text. -/
theorem C4_rawtext_degrade :
    (∀ (st : Nat) (ct body : String) (parsed : Option Json),
        st ≠ 404 → st < 400 → containsSubstr "json" ct = false →
        fetch (.resp st ct body parsed) = .ok (.str body))
    ∧ (∀ (st : Nat) (ct body : String),
        st ≠ 404 → st < 400 → containsSubstr "json" ct = true →
        fetch (.resp st ct body none) = .error .jsonDecode) := by
  constructor
  · intro st ct body parsed h404 hlt hct
    simp only [fetch]
    rw [if_neg h404, if_neg (by omega : ¬ 400 ≤ st)]
    simp [hct]
  · intro st ct body h404 hlt hct
    simp only [fetch]
    rw [if_neg h404, if_neg (by omega : ¬ 400 ≤ st)]
    simp [hct]

/-- Witness for C4 at concrete responses. -/
theorem C4_rawtext_degrade_witness :
    fetch (.resp 200 "image/svg+xml" "svgbody" none) = .ok (.str "svgbody")
    ∧ fetch (.resp 200 "application/json" "oops" none) = .error .jsonDecode :=
  ⟨C4_rawtext_degrade.1 200 "image/svg+xml" "svgbody" none (by decide) (by decide)
     (by decide),
   C4_rawtext_degrade.2 200 "application/json" "oops" (by decide) (by decide)
     (by decide)⟩

/-- Counterexample to C4 as stated: a 200 response declared
`application/json` whose body is not parseable JSON raises a decode error;
it is not returned as raw text. -/
theorem C4_json_decode_counterexample :
    fetch (.resp 200 "application/json" "not json" none) = .error .jsonDecode
    ∧ fetch (.resp 200 "application/json" "not json" none) ≠ .ok (.str "not json") := by
  constructor
  · rfl
  · intro hc
    simp [fetch, containsSubstr] at hc

/-- Claim C6 (amended): the FDA `download_pdf` persister is idempotent — an
existing file is skipped with no overwrite and no error, a repeated call is a
no-op, and a fresh successful persist performs exactly one physical write.
(The chembl svg persist, by contrast, writes unconditionally; see the
counterexample.) -/
theorem C6_idempotent_persist :
    (∀ (fs : FS) (u a d : String) (r : Option String),
        download_pdf (download_pdf fs u a d r) u a d r = download_pdf fs u a d r)
    ∧ (∀ (fs : FS) (u a d : String) (r : Option String),
        fs.pathExists (savePath u a d) = true → download_pdf fs u a d r = fs)
    ∧ (∀ (fs : FS) (u a d b : String),
        fs.pathExists (savePath u a d) = false →
        (download_pdf fs u a d (some b)).writeLog
          = fs.writeLog ++ [(savePath u a d, b)]) := by
  refine ⟨?_, ?_, ?_⟩
  · intro fs u a d r
    unfold download_pdf
    cases hex : fs.pathExists (savePath u a d) with
    | true => simp [hex]
    | false =>
      cases r with
      | none => simp [hex]
      | some b => simp [hex, FS.pathExists_write_self]
  · intro fs u a d r hex
    unfold download_pdf
    simp [hex]
  · intro fs u a d b hex
    unfold download_pdf
    simp [hex, FS.write]

/-- Witness for C6 at a concrete state: a fresh persist writes once, and the
repeated call is the identity. -/
theorem C6_idempotent_persist_witness :
    (download_pdf emptyFS "http://x/f.pdf" "000123" "DrugA" (some "bytes")).writeLog
      = [] ++ [(savePath "http://x/f.pdf" "000123" "DrugA", "bytes")]
    ∧ download_pdf (download_pdf emptyFS "http://x/f.pdf" "000123" "DrugA" (some "bytes"))
        "http://x/f.pdf" "000123" "DrugA" (some "bytes")
      = download_pdf emptyFS "http://x/f.pdf" "000123" "DrugA" (some "bytes") :=
  ⟨C6_idempotent_persist.2.2 emptyFS "http://x/f.pdf" "000123" "DrugA" "bytes" (by decide),
   C6_idempotent_persist.1 emptyFS "http://x/f.pdf" "000123" "DrugA" (some "bytes")⟩

/-- Counterexample to C6 as stated: the chembl svg persist step performs no
existence check — persisting the same (id, payload) twice physically writes
twice, so the second call is not a no-op. -/
theorem C6_svg_overwrite_counterexample :
    (persistSvgStep emptyFS recC6).bind
      (fun f1 => (persistSvgStep f1 recC6).map (fun f2 => f2.writeLog.length))
      = .ok 2 := rfl

/-- Claim C7 (amended): the chembl normalizer is total and deterministic —
every non-string input maps to the empty key, and the result is invariant
under the removed separator characters; but the uppercase (fda) convention is
a different canonicalization rule (it keeps interior whitespace), not the
uppercase case-fold of the same removal rule. -/
theorem C7_normalizer :
    (∀ j : Json, j.isStr = false → normalize_name j = "")
    ∧ (∀ s t : String, normStr (s ++ "-" ++ t) = normStr (s ++ t))
    ∧ normalize_name_fda "a b" = "A B"
    ∧ normStrUpper "a b" = "AB" := by
  refine ⟨?_, ?_, rfl, rfl⟩
  · intro j h
    cases j <;> simp_all [Json.isStr, normalize_name]
  · intro s t
    simp only [normStr, String.toList, String.data_append, List.filter_append]
    have h1 : List.filter (fun c => !isStripChar c) ("-" : String).data = [] := by
      decide
    rw [h1]
    simp

/-- Witness for C7 at concrete inputs. -/
theorem C7_normalizer_witness :
    normalize_name (Json.num 1) = ""
    ∧ normStr ("ab" ++ "-" ++ "cd") = normStr ("ab" ++ "cd") :=
  ⟨C7_normalizer.1 (Json.num 1) rfl, C7_normalizer.2.1 "ab" "cd"⟩

/-- Counterexample to C7 as stated: the uppercase (fda) normalizer is not the
uppercase variant of the chembl removal rule — on "a b" they disagree. -/
theorem C7_variant_counterexample :
    normalize_name_fda "a b" = "A B"
    ∧ normStrUpper "a b" = "AB"
    ∧ normalize_name_fda "a b" ≠ normStrUpper "a b" := by
  refine ⟨rfl, rfl, ?_⟩
  decide

theorem maxScore_cons (t : String) (m : Json) (ms : List Json) (s : Int) :
    maxScore t (m :: ms) s = maxScore t ms (max s (candScore t m)) := rfl

theorem le_maxScore (t : String) : ∀ (ms : List Json) (s : Int), s ≤ maxScore t ms s := by
  intro ms
  induction ms with
  | nil => intro s; simp [maxScore]
  | cons m ms ih =>
    intro s
    rw [maxScore_cons]
    exact le_trans (le_max_left _ _) (ih _)

theorem selAux_le (t : String) : ∀ (ms : List Json) (b : Json) (s : Int),
    maxScore t ms s ≤ s → selAux t ms b s = b := by
  intro ms
  induction ms with
  | nil => intro b s _; rfl
  | cons m ms ih =>
    intro b s h
    rw [maxScore_cons] at h
    have hmm : max s (candScore t m) ≤ s := le_trans (le_maxScore t ms _) h
    have hc : candScore t m ≤ s := le_trans (le_max_right _ _) hmm
    rw [max_eq_left hc] at h
    simp only [selAux]
    rw [if_neg (by omega : ¬ candScore t m > s)]
    exact ih b s h

theorem selAux_gt (t : String) : ∀ (ms : List Json) (b : Json) (s : Int),
    maxScore t ms s > s →
    ∃ m, ms.find? (fun x => candScore t x == maxScore t ms s) = some m
      ∧ selAux t ms b s = m.dget "molecule_chembl_id" := by
  intro ms
  induction ms with
  | nil =>
    intro b s h
    rw [maxScore] at h
    exact absurd h (by simp)
  | cons m ms ih =>
    intro b s h
    by_cases hcs : candScore t m > s
    · have hm : maxScore t (m :: ms) s = maxScore t ms (candScore t m) := by
        rw [maxScore_cons, max_eq_right (le_of_lt hcs)]
      by_cases h2 : maxScore t ms (candScore t m) > candScore t m
      · obtain ⟨m', hfind, hsel⟩ := ih (m.dget "molecule_chembl_id") (candScore t m) h2
        refine ⟨m', ?_, ?_⟩
        · simp only [hm]
          rw [List.find?_cons_of_neg]
          · exact hfind
          · simp only [beq_iff_eq]
            omega
        · simp only [selAux]
          rw [if_pos hcs]
          exact hsel
      · have hle : maxScore t ms (candScore t m) ≤ candScore t m := not_lt.mp h2
        have heq : maxScore t ms (candScore t m) = candScore t m :=
          le_antisymm hle (le_maxScore t ms _)
        refine ⟨m, ?_, ?_⟩
        · simp only [hm, heq]
          apply List.find?_cons_of_pos
          simp
        · simp only [selAux]
          rw [if_pos hcs]
          exact selAux_le t ms _ _ hle
    · have hm : maxScore t (m :: ms) s = maxScore t ms s := by
        rw [maxScore_cons, max_eq_left (not_lt.mp hcs)]
      rw [hm] at h
      obtain ⟨m', hfind, hsel⟩ := ih b s h
      refine ⟨m', ?_, ?_⟩
      · simp only [hm]
        rw [List.find?_cons_of_neg]
        · exact hfind
        · simp only [beq_iff_eq]
          have : candScore t m ≤ s := not_lt.mp hcs
          omega
      · simp only [selAux]
        rw [if_neg hcs]
        exact hsel

theorem scoreLoop_eq_selAux (t : String) : ∀ (ms : List Json) (b : Json) (s : Int),
    (∀ m ∈ ms, m.isObj = true) → scoreLoop t ms b s = .ok (selAux t ms b s) := by
  intro ms
  induction ms with
  | nil => intro b s _; rfl
  | cons m ms ih =>
    intro b s h
    obtain ⟨kvs, hkvs⟩ := isObj_exists (h m (List.mem_cons_self m ms))
    subst hkvs
    simp only [scoreLoop, selAux]
    by_cases hc : candScore t (.obj kvs) > s
    · rw [if_pos hc, if_pos hc]
      exact ih _ _ (fun x hx => h x (List.mem_cons_of_mem _ hx))
    · rw [if_neg hc, if_neg hc]
      exact ih _ _ (fun x hx => h x (List.mem_cons_of_mem _ hx))

/-- Closed form of the resolver on a well-formed non-empty search response:
the loop winner (which may be falsy) with the first candidate's id as the
fallback. -/
theorem get_chembl_id_eq (name : String) (m0 : Json) (rest : List Json)
    (hobj : ∀ m ∈ m0 :: rest, m.isObj = true) :
    get_chembl_id (searchResp (m0 :: rest)) name =
      .ok (pyOrJ (selAux (normStr name) (m0 :: rest) .null (-1))
        (m0.dget "molecule_chembl_id")) := by
  have h0 : get_chembl_id (searchResp (m0 :: rest)) name =
      (match scoreLoop (normStr name) (m0 :: rest) .null (-1) with
       | .error e => .error e
       | .ok best =>
         if best.truthy then .ok best else m0.dictGet "molecule_chembl_id") := rfl
  rw [h0, scoreLoop_eq_selAux (normStr name) (m0 :: rest) .null (-1) hobj]
  by_cases hb : (selAux (normStr name) (m0 :: rest) .null (-1)).truthy
  · simp [pyOrJ, hb]
  · simp only [pyOrJ]
    rw [dictGet_obj _ (hobj m0 (List.mem_cons_self _ _))]
    simp [hb]

/-- Claim C2 (amended): the per-candidate score is +100 on a normalized
preferred-name match (a missing pref name counting as the empty string), +80
per matching synonym, plus the truncation toward zero of a numeric external
score (Python `int()`, with bool admitted as numeric) — not its floor; when
some candidate scores above the loop's initial best of -1, the resolver picks
the first candidate attaining the maximal score and returns its id, falling
back to the first candidate's id when the winner's id is falsy.  On the
spec's worked example the score is 112 and "X25" is returned. -/
theorem C2_resolver_scoring (name : String) (m0 : Json) (rest : List Json)
    (hobj : ∀ m ∈ m0 :: rest, m.isObj = true)
    (hpos : maxScore (normStr name) (m0 :: rest) (-1) > -1) :
    (∃ m, (m0 :: rest).find?
        (fun x => candScore (normStr name) x == maxScore (normStr name) (m0 :: rest) (-1))
        = some m
      ∧ get_chembl_id (searchResp (m0 :: rest)) name
          = .ok (pyOrJ (m.dget "molecule_chembl_id") (m0.dget "molecule_chembl_id")))
    ∧ candScore (normStr "Aspirin") aspirinCand = 112
    ∧ get_chembl_id (searchResp [aspirinCand]) "Aspirin" = .ok (.str "X25") := by
  refine ⟨?_, by decide, rfl⟩
  obtain ⟨m, hfind, hsel⟩ := selAux_gt (normStr name) (m0 :: rest) .null (-1) hpos
  exact ⟨m, hfind, by rw [get_chembl_id_eq name m0 rest hobj, hsel]⟩

/-- Witness for C2 on the spec's worked example. -/
theorem C2_resolver_scoring_witness :
    get_chembl_id (searchResp [aspirinCand]) "Aspirin" = .ok (.str "X25") :=
  (C2_resolver_scoring "Aspirin" aspirinCand []
    (by intro m hm; rw [List.mem_singleton] at hm; subst hm; rfl)
    (by decide)).2.2

/-- Counterexample to C2 as stated: with external score -1.5 the code adds
-1 (truncation), not floor -2.  Observably, on candidates A (pref match,
score -1.5) and B (synonym match, score 19) the code scores both 99 and
returns A's id, while the claim's floor scoring makes B strictly highest
(99 over 98) and would return B's id. -/
theorem C2_floor_counterexample :
    candScore (normStr "Aspirin") candA = 99
    ∧ specCandScore (normStr "Aspirin") candA = 98
    ∧ get_chembl_id (searchResp [candA, candB]) "Aspirin" = .ok (.str "IDA")
    ∧ specSelect (normStr "Aspirin") [candA, candB] = .str "IDB"
    ∧ Json.str "IDA" ≠ Json.str "IDB" := by
  refine ⟨by decide, by decide, rfl, rfl, ?_⟩
  intro hc
  injection hc with h
  exact absurd h (by decide)

/-- Claim C3 (amended): on a non-empty well-formed candidate list the
resolver returns the loop winner's id when truthy, otherwise the first
candidate's id; the result is truthy exactly when one of those two ids is —
it can still be empty when both are absent. -/
theorem C3_fallback_id (name : String) (m0 : Json) (rest : List Json)
    (hobj : ∀ m ∈ m0 :: rest, m.isObj = true) :
    ∃ b, get_chembl_id (searchResp (m0 :: rest)) name = .ok b
      ∧ b = pyOrJ (selAux (normStr name) (m0 :: rest) .null (-1))
          (m0.dget "molecule_chembl_id")
      ∧ b.truthy = ((selAux (normStr name) (m0 :: rest) .null (-1)).truthy
          || (m0.dget "molecule_chembl_id").truthy) :=
  ⟨_, get_chembl_id_eq name m0 rest hobj, rfl, pyOrJ_truthy _ _⟩

/-- Witness for C3: a single candidate whose id is present resolves to a
truthy id. -/
theorem C3_fallback_id_witness :
    ∃ b, get_chembl_id (searchResp [Json.obj [("molecule_chembl_id", Json.str "Z9")]])
        "Foo" = .ok b ∧ b.truthy = true := by
  obtain ⟨b, h1, h2, h3⟩ := C3_fallback_id "Foo"
    (.obj [("molecule_chembl_id", .str "Z9")]) []
    (by intro m hm; rw [List.mem_singleton] at hm; subst hm; rfl)
  refine ⟨b, h1, ?_⟩
  rw [h3]
  decide

/-- Counterexample to C3 as stated: a non-empty candidate list whose single
candidate has no id makes the resolver return None — an empty canonicalId. -/
theorem C3_empty_id_counterexample :
    get_chembl_id (searchResp [Json.obj []]) "Foo" = .ok Json.null
    ∧ Json.null.truthy = false := ⟨rfl, rfl⟩

theorem ctGo_page (items : List Json) (tok : Json) (rest : List CTResp)
    (acc : List Json) (n : Nat) :
    ctGo (ctPage items tok :: rest) acc n =
      (if tok.truthy then ctGo rest (acc ++ items) (n + 1)
       else .done (acc ++ items) (n + 1)) := rfl

theorem ctGo_front : ∀ (front : List (List Json × Json)) (rest : List CTResp)
    (acc : List Json) (n : Nat), (∀ p ∈ front, (p.2).truthy = true) →
    ctGo (ctPages front ++ rest) acc n
      = ctGo rest (acc ++ (front.map Prod.fst).flatten) (n + front.length) := by
  intro front
  induction front with
  | nil => intro rest acc n _; simp [ctPages]
  | cons p front ih =>
    intro rest acc n h
    rw [show ctPages (p :: front) ++ rest
        = ctPage p.1 p.2 :: (ctPages front ++ rest) from rfl]
    rw [ctGo_page, if_pos (h p (List.mem_cons_self _ _))]
    rw [ih rest (acc ++ p.1) (n + 1) (fun q hq => h q (List.mem_cons_of_mem _ hq))]
    have e1 : (acc ++ p.1) ++ (front.map Prod.fst).flatten
        = acc ++ ((p :: front).map Prod.fst).flatten := by
      simp [List.append_assoc]
    have e2 : n + 1 + front.length = n + (p :: front).length := by
      simp only [List.length_cons]
      omega
    rw [e1, e2]

theorem ctGo_last (lastItems : List Json) (ltok : Json)
    (h : ltok.truthy = false) (acc : List Json) (n : Nat) :
    ctGo [ctPage lastItems ltok] acc n = .done (acc ++ lastItems) (n + 1) := by
  rw [show ([ctPage lastItems ltok] : List CTResp)
      = ctPage lastItems ltok :: ([] : List CTResp) from rfl]
  rw [ctGo_page, if_neg (by simp [h])]

/-- Claim C5 (amended): on all-200 well-formed pages, depagination
accumulates exactly the concatenation of the pages' item lists in page order,
issues one request per page, and stops at the first page whose cursor is
falsy; however a non-200 page also terminates the loop early with that page's
items discarded (see the counterexample), so cursor absence is not the only
exit. -/
theorem C5_depagination (front : List (List Json × Json))
    (lastPage : List Json × Json)
    (h1 : ∀ p ∈ front, (p.2).truthy = true)
    (h2 : (lastPage.2).truthy = false) :
    fetch_studies (ctPages (front ++ [lastPage]))
      = .done (((front ++ [lastPage]).map Prod.fst).flatten)
          (front.length + 1) := by
  rw [fetch_studies]
  rw [show ctPages (front ++ [lastPage])
      = ctPages front ++ [ctPage lastPage.1 lastPage.2] from by simp [ctPages]]
  rw [ctGo_front front _ [] 0 h1]
  rw [ctGo_last lastPage.1 lastPage.2 h2]
  simp

/-- Witness for C5: the spec's 3-page simulation yields pages 1-3
concatenated in order after exactly 3 requests. -/
theorem C5_depagination_witness :
    fetch_studies (ctPages ctThree)
      = .done [.str "s1", .str "s2", .str "s3", .str "s4", .str "s5"] 3 := by
  have h := C5_depagination
    [([.str "s1", .str "s2"], .str "tok1"), ([.str "s3"], .str "tok2")]
    ([.str "s4", .str "s5"], .null)
    (by
      intro p hp
      simp only [List.mem_cons, List.not_mem_nil, or_false] at hp
      rcases hp with h | h <;> subst h <;> rfl)
    rfl
  exact h

/-- Counterexample to C5 as stated: a second page with status 500 whose body
still carries items and a truthy cursor terminates depagination after 2
requests with that page's items discarded — not the claimed exact
concatenation of all pages with termination precisely at cursor absence. -/
theorem C5_non200_counterexample :
    fetch_studies ctBad = .done [.str "a"] 2
    ∧ (.done [.str "a"] 2 : CTOutcome) ≠ .done [.str "a", .str "b"] 3 := by
  refine ⟨rfl, ?_⟩
  intro h
  injection h with h1 h2
  exact absurd h2 (by decide)

theorem dictGet_obj' (kvs : List (String × Json)) (k : String) :
    (Json.obj kvs).dictGet k = .ok ((Json.obj kvs).dget k) := rfl

/-- Claim C8 (amended): on records whose molecule/properties/structures
slots are objects after null-defaulting and whose activities and mechanism
slots are lists after null-defaulting, the flattener equals the total
spec-side projection (fixed column set, null for missing fields, counts = the
list lengths, flag = truthiness of the drug record) and never fails; a
record carrying a RawText detail makes the code raise instead (see the
counterexample). -/
theorem C8_flattener_total (rec : Json)
    (h1 : rec.isObj = true)
    (h2 : (pyOrJ (rec.dget "molecule") (Json.obj [])).isObj = true)
    (h3 : (pyOrJ ((pyOrJ (rec.dget "molecule") (Json.obj [])).dget
        "molecule_properties") (Json.obj [])).isObj = true)
    (h4 : (pyOrJ ((pyOrJ (rec.dget "molecule") (Json.obj [])).dget
        "molecule_structures") (Json.obj [])).isObj = true)
    (h5 : (pyOrJ (rec.dget "activities") (Json.arr [])).isArr = true)
    (h6 : (pyOrJ (rec.dget "mechanism") (Json.arr [])).isArr = true) :
    flatten_record rec = .ok (flattenSpec rec)
    ∧ (flattenSpec rec).keys = flatColumns := by
  obtain ⟨rf, hrf⟩ := isObj_exists h1
  subst hrf
  obtain ⟨mf, hmf⟩ := isObj_exists h2
  rw [hmf] at h3 h4
  obtain ⟨pf, hpf⟩ := isObj_exists h3
  obtain ⟨sf, hsf⟩ := isObj_exists h4
  obtain ⟨axs, hax⟩ := isArr_exists h5
  obtain ⟨mxs, hmx⟩ := isArr_exists h6
  constructor
  · simp only [flatten_record, flattenSpec, dictGet_obj', hmf, hpf, hsf, hax,
      hmx, pyLen, listLenD, Json.isObj, Bool.not_true]
    simp
  · rfl

/-- Witness for C8 on a fully populated record. -/
theorem C8_flattener_total_witness :
    flatten_record recW8 = .ok (flattenSpec recW8)
    ∧ (flattenSpec recW8).keys = flatColumns :=
  C8_flattener_total recW8 rfl rfl rfl rfl rfl rfl

/-- Counterexample to C8 as stated: a record whose detail field is RawText (a
string) makes the flattener raise an attribute error instead of producing a
row. -/
theorem C8_rawtext_counterexample :
    flatten_record rawTextRec = .error .attrError
    ∧ flatten_record rawTextRec ≠ .ok (flattenSpec rawTextRec) := by
  refine ⟨rfl, fun h => ?_⟩
  rw [show flatten_record rawTextRec
      = (.error .attrError : Except PyErr Json) from rfl] at h
  exact Except.noConfusion h

/-- Every record `process_drug` returns is an object carrying its input name
under "drug_name" and a string-or-absent svg payload. -/
theorem process_drug_ok_shape (env : Env) (d : String) (r : Json)
    (h : process_drug env d = .ok r) :
    r.isObj = true ∧ r.dget "drug_name" = .str d ∧
      (r.dget "structure_svg" = Json.null ∨ ∃ s, r.dget "structure_svg" = .str s) := by
  unfold process_drug at h
  cases hg : get_chembl_id env.search d with
  | error e => rw [hg] at h; simp at h
  | ok cid =>
    rw [hg] at h
    by_cases hc : cid.truthy
    · simp only [hc, Bool.not_true, Bool.false_eq_true, if_false] at h
      cases h1 : fetch env.molecule with
      | error e => rw [h1] at h; simp at h
      | ok molecule =>
        rw [h1] at h
        cases h2 : fetch env.drug with
        | error e => rw [h2] at h; simp at h
        | ok drug =>
          rw [h2] at h
          cases h3 : fetch env.mechanism with
          | error e => rw [h3] at h; simp at h
          | ok mech =>
            rw [h3] at h
            cases h4 : fetch env.activity with
            | error e => rw [h4] at h; simp at h
            | ok act =>
              rw [h4] at h
              cases h5 : fetch_image_svg env.svg with
              | error e => rw [h5] at h; simp at h
              | ok svg =>
                rw [h5] at h
                simp only [Except.ok.injEq] at h
                subst h
                exact ⟨rfl, rfl, Or.inr ⟨svg, rfl⟩⟩
    · simp only [hc, Bool.not_false, if_true] at h
      simp only [Except.ok.injEq] at h
      subst h
      exact ⟨rfl, rfl, Or.inl rfl⟩

/-- The svg persist step never raises on a record of the shape produced by
`process_drug`. -/
theorem persistSvgStep_ok (fs : FS) (r : Json) (hobj : r.isObj = true)
    (hsvg : r.dget "structure_svg" = Json.null ∨ ∃ s, r.dget "structure_svg" = .str s) :
    ∃ fs', persistSvgStep fs r = .ok fs' := by
  obtain ⟨kvs, hkvs⟩ := isObj_exists hobj
  subst hkvs
  simp only [persistSvgStep, dictGet_obj']
  rcases hsvg with hn | ⟨s, hs⟩
  · rw [hn]
    exact ⟨fs, by simp [pyOrJ, Json.truthy]⟩
  · rw [hs]
    by_cases hse : s = ""
    · subst hse
      exact ⟨fs, by simp [pyOrJ, Json.truthy]⟩
    · have htr : (Json.str s).truthy = true := by simp [Json.truthy, hse]
      rw [show pyOrJ (Json.str s) (Json.str "") = Json.str s from by
        simp [pyOrJ, htr]]
      cases hct : ((Json.obj kvs).dget "chembl_id").truthy
      · exact ⟨fs, by simp [hct]⟩
      · refine ⟨fs.write ("structures/"
          ++ pyFormat ((Json.obj kvs).dget "chembl_id") ++ ".svg") s, ?_⟩
        simp [hct, htr]

/-- The collection loop succeeds and emits one record per name, in order,
whenever every per-entity pipeline resolves and flattens without raising. -/
theorem mainLoop_ok : ∀ (l : List String) (env : String → Env) (fs : FS),
    (∀ d ∈ l, ∃ rec flat, process_drug (env d) d = .ok rec
      ∧ flatten_record rec = .ok flat) →
    ∃ out, mainLoop env fs l = .ok out ∧ out.results.length = l.length ∧
      out.results.map (fun r => r.dget "drug_name") = l.map Json.str := by
  intro l
  induction l with
  | nil => intro env fs _; exact ⟨⟨[], [], fs⟩, rfl, rfl, rfl⟩
  | cons d ds ih =>
    intro env fs h
    obtain ⟨rec, flat, hrec, hflat⟩ := h d (List.mem_cons_self _ _)
    obtain ⟨hobj, hname, hsvg⟩ := process_drug_ok_shape _ _ _ hrec
    obtain ⟨fs1, hfs1⟩ := persistSvgStep_ok fs rec hobj hsvg
    obtain ⟨out, hout, hlen, hmap⟩ := ih env fs1
      (fun x hx => h x (List.mem_cons_of_mem _ hx))
    refine ⟨⟨rec :: out.results, flat :: out.flattened, out.fs⟩, ?_, ?_, ?_⟩
    · simp only [mainLoop, hrec, hfs1, hflat, hout]
    · simp [hlen]
    · simp [hmap, hname]

/-- Claim C1 (amended): when no entity's pipeline raises (all its fetches
succeed or 404 and its record flattens), the run emits exactly one record per
distinct non-null input name, carrying that name; a failed resolution is
converted into a record with an error field rather than aborting.  But the
unit boundary catches nothing: a raised exception in any entity aborts the
entire run and no output is emitted (see the counterexample). -/
theorem C1_per_entity_isolation (env : String → Env) (cells : List (Option String))
    (h : ∀ d ∈ drugsOf cells, ∃ rec flat, process_drug (env d) d = .ok rec
      ∧ flatten_record rec = .ok flat) :
    (∃ out, mainRun env cells = .ok out
      ∧ out.results.length = (drugsOf cells).length
      ∧ out.results.map (fun r => r.dget "drug_name")
          = (drugsOf cells).map Json.str)
    ∧ (∀ (e : Env) (d : String) (cid : Json),
        get_chembl_id e.search d = .ok cid → cid.truthy = false →
        process_drug e d = .ok (errRecord d)) := by
  constructor
  · exact mainLoop_ok (drugsOf cells) env emptyFS h
  · intro e d cid hg hf
    unfold process_drug
    rw [hg]
    simp [hf]

/-- Witness for C1: a run over a duplicated name and a missing cell, in an
environment where resolution misses, emits a single not-found record. -/
theorem C1_per_entity_isolation_witness :
    ∃ out, mainRun envW cellsW = .ok out
      ∧ out.results.length = 1
      ∧ out.results.map (fun r => r.dget "drug_name") = [Json.str "A"] := by
  obtain ⟨⟨out, hout, hlen, hmap⟩, _⟩ := C1_per_entity_isolation envW cellsW
    (by
      intro d hd
      rw [show drugsOf cellsW = ["A"] from rfl, List.mem_singleton] at hd
      subst hd
      exact ⟨errRecord "A", flattenSpec (errRecord "A"), rfl, rfl⟩)
  exact ⟨out, hout, by rw [hlen]; rfl, by rw [hmap]; rfl⟩

/-- Counterexample to C1 as stated: one entity's molecule fetch raising a
transport error aborts the whole two-entity run — no record is emitted for
either entity, instead of an error-annotated record per entity. -/
theorem C1_abort_counterexample :
    mainRun (fun _ => abortEnv) [some "A", some "B"] = .error .transport
    ∧ ∀ out, mainRun (fun _ => abortEnv) [some "A", some "B"] ≠ .ok out := by
  refine ⟨rfl, ?_⟩
  intro out h
  rw [show mainRun (fun _ => abortEnv) [some "A", some "B"]
      = (.error .transport : Except PyErr RunResult) from rfl] at h
  exact Except.noConfusion h

/-- Claim C10: the input column is stripped of missing values and
first-occurrence deduplicated before any unit is spawned — the processed name
list is duplicate-free and contains exactly the distinct non-null input
names, and (when no pipeline raises) the output holds one record per
distinct name, not one per input row. -/
theorem C10_dedup (env : String → Env) (cells : List (Option String))
    (h : ∀ d ∈ drugsOf cells, ∃ rec flat, process_drug (env d) d = .ok rec
      ∧ flatten_record rec = .ok flat) :
    (drugsOf cells).Nodup
    ∧ (∀ x, x ∈ drugsOf cells ↔ some x ∈ cells)
    ∧ ∃ out, mainRun env cells = .ok out
        ∧ out.results.length = (drugsOf cells).length := by
  refine ⟨nodup_uniqueFirst _, ?_, ?_⟩
  · intro x
    rw [drugsOf, mem_uniqueFirst, List.mem_filterMap]
    constructor
    · rintro ⟨a, ha, hax⟩
      rw [show id a = a from rfl] at hax
      exact hax ▸ ha
    · intro hx
      exact ⟨some x, hx, rfl⟩
  · obtain ⟨out, h1, h2, _⟩ := mainLoop_ok (drugsOf cells) env emptyFS h
    exact ⟨out, h1, h2⟩

/-- Witness for C10: two identical input names produce a single record. -/
theorem C10_dedup_witness :
    (drugsOf [some "B", some "B"]).Nodup
    ∧ drugsOf [some "B", some "B"] = ["B"]
    ∧ ∃ out, mainRun envW [some "B", some "B"] = .ok out
        ∧ out.results.length = 1 := by
  obtain ⟨h1, _, out, h3, h4⟩ := C10_dedup envW [some "B", some "B"]
    (by
      intro d hd
      rw [show drugsOf [some "B", some "B"] = ["B"] from rfl,
        List.mem_singleton] at hd
      subst hd
      exact ⟨errRecord "B", flattenSpec (errRecord "B"), rfl, rfl⟩)
  exact ⟨h1, rfl, out, h3, by rw [h4]; rfl⟩

end NFA
